import Mathlib

/-!
# A shallow embedding of the go-acoustid `index` package

The `index` package implements a persistent inverted index over 32-bit
integer terms mapping to 32-bit document identifiers (a `term → docID`
multimap).  The orchestrator (`index/db.go`) is embedded directly from the
source; the segment, manifest, transaction and search components, whose
source files are not part of the snapshot under verification, are modelled
from the specification (spec.md §3, §4.2–§4.6).

Machine integers: Go's `uint32` counters are modelled as `Nat` reduced
modulo `2^32` at each increment (`atomic.AddUint32` wraps).  File contents
are abstracted: a file system holds the latest saved manifest; segment
data is held as a sorted list of `(term, docID)` pairs.
-/

/-- Reduction modulo `2^32`, the behaviour of Go `uint32` arithmetic. -/
def u32 (n : Nat) : Nat := n % 4294967296

/-- Lexicographic order on `(term, docID)` items (spec §3: items are
totally ordered by `(term, docID)` lexicographically). -/
def itemLe (a b : Nat × Nat) : Bool :=
  a.1 < b.1 || (a.1 == b.1 && a.2 ≤ b.2)

/-- Insert an item into a sorted, duplicate-free item list, keeping it
sorted and dropping an exact duplicate (spec §3 invariant: within a
segment a `(term, docID)` pair is unique). -/
def insertItem (x : Nat × Nat) : List (Nat × Nat) → List (Nat × Nat)
  | [] => [x]
  | y :: ys =>
    if x == y then y :: ys
    else if itemLe x y then x :: y :: ys
    else y :: insertItem x ys

/-- Sort a list of items by `(term, docID)` and drop exact duplicates. -/
def sortItems (l : List (Nat × Nat)) : List (Nat × Nat) :=
  l.foldr insertItem []

/-- Insert a number into a sorted, duplicate-free list. -/
def insertNat (x : Nat) : List Nat → List Nat
  | [] => [x]
  | y :: ys =>
    if x == y then y :: ys
    else if x ≤ y then x :: y :: ys
    else y :: insertNat x ys

/-- Sort and deduplicate a list of numbers (spec §4.6 step 1: deduplicate
and sort the query). -/
def sortDedup (l : List Nat) : List Nat :=
  l.foldr insertNat []

/-- Modelled from the spec (§3 "Segment", the segment source file is not in
the snapshot): an immutable sorted run of items with an attached deletion
set.  `items` is the sorted item stream, `deletedDocs` the set of docIDs
tombstoned at or after the segment's creation, `UpdateID` the id of the
latest manifest revision that changed the deletion set.  `dirty` marks a
deletion set changed by the commit in progress and not yet persisted
(spec §4.5 step 7 rewrites metadata only for segments whose deletion set
was modified in this commit). -/
structure Segment where
  id : Nat
  items : List (Nat × Nat)
  deletedDocs : List Nat
  UpdateID : Nat
  dirty : Bool
deriving DecidableEq, Repr

/-- Modelled from the spec (§4.2 `Contains(docID)`): whether the segment's
item stream mentions the docID.  The membership oracle has no false
negatives, so `oracle admits d ∧ Contains d` is `Contains d`. -/
def Segment.Contains (s : Segment) (d : Nat) : Bool :=
  s.items.any fun it => it.2 == d

/-- Modelled from the spec (§4.2 `Delete(docID)` and §4.5 step 5): if the
segment contains the docID and it is not yet tombstoned, add it to
`deletedDocs` and mark the metadata dirty. -/
def Segment.Delete (s : Segment) (d : Nat) : Segment :=
  if s.Contains d && !(s.deletedDocs.contains d) then
    { s with deletedDocs := s.deletedDocs ++ [d], dirty := true }
  else s

/-- Apply a list of tombstones to one segment in order. -/
def Segment.applyDeletes (s : Segment) (ds : List Nat) : Segment :=
  ds.foldl Segment.Delete s

/-- Modelled from the spec (§3 "Manifest"): a monotonic transaction id and
the ordered list of segments constituting a committed state.  The
aggregate counters and checksum are derived data and are not needed by
any claim. -/
structure Manifest where
  ID : Nat
  Segments : List Segment
deriving DecidableEq, Repr

/-- Whether any segment's item stream mentions the docID
(`DB.Contains` in db.go defers to the per-segment `Contains`). -/
def Manifest.ContainsDoc (m : Manifest) (d : Nat) : Bool :=
  m.Segments.any fun s => s.Contains d

/-- Modelled from the spec (§4.2 segment creation): given the staged items
and a target segment id, build the immutable sorted segment.  A fresh
segment has an empty deletion set and `UpdateID` equal to its id. -/
def CreateSegment (sid : Nat) (staged : List (Nat × Nat)) : Segment :=
  { id := sid, items := sortItems staged, deletedDocs := [],
    UpdateID := sid, dirty := false }

/-- Modelled from the spec (§4.2, §4.6 step 3): the number of distinct
query terms a docID shares with the live items of the manifest.  An item
`(t, d)` contributes when some segment lists it and does not tombstone
`d`; counts add across segments. -/
def Manifest.searchCount (m : Manifest) (q : List Nat) (d : Nat) : Nat :=
  ((sortDedup q).map fun t =>
    (m.Segments.map fun s =>
      if s.items.contains (t, d) && !(s.deletedDocs.contains d) then 1 else 0).sum).sum

/-- The docIDs that appear in the result accumulator: those with at least
one live item whose term is in the (deduplicated) query. -/
def Manifest.searchDocs (m : Manifest) (q : List Nat) : List Nat :=
  sortDedup (m.Segments.foldr (fun s acc =>
    (s.items.filterMap fun it =>
      if (sortDedup q).contains it.1 && !(s.deletedDocs.contains it.2) then
        some it.2
      else none) ++ acc) [])

/-- Modelled from the spec (§4.6 `Snapshot.Search`): the `docID → count`
accumulator, rendered as an association list sorted by docID (the Go map
is unordered; equality of maps is equality of these canonical lists). -/
def Manifest.Search (m : Manifest) (q : List Nat) : List (Nat × Nat) :=
  (m.searchDocs q).map fun d => (d, m.searchCount q d)

/-- The error values surfaced by the DB layer (db.go `ErrAlreadyClosed`,
spec §7 error kinds).  `errors.Wrap` in Go preserves the cause, so wrapped
errors are identified with their cause. -/
inductive Err where
  | AlreadyClosed
  | NotFound
  | Validation
  | SegmentUpdateFailed
  | SaveFailed
  | PrepareFailed
deriving DecidableEq, Repr

/-- Modelled from the spec (§4.4, the transaction source file is not in
the snapshot): a `Batch` owning a base snapshot and a staging buffer.
The buffer holds the staged `(term, docID)` items in arrival order; 
`pendingDeletes` the docIDs to tombstone in older segments at commit. -/
structure Transaction where
  base : Manifest
  buffer : List (Nat × Nat)
  pendingDeletes : List Nat
deriving DecidableEq, Repr

/-- Modelled from the spec (§4.4 `Add`, §7 Validation): docID must be
non-zero and terms non-empty; the items are staged; if the docID already
existed in the base snapshot or in the staging buffer it is recorded in
`pendingDeletes`. -/
def Transaction.Add (tx : Transaction) (docID : Nat) (terms : List Nat) :
    Except Err Transaction :=
  if docID == 0 then .error .Validation
  else if terms.isEmpty then .error .Validation
  else
    let pd :=
      if tx.base.ContainsDoc docID || tx.buffer.any (fun it => it.2 == docID) then
        tx.pendingDeletes ++ [docID]
      else tx.pendingDeletes
    .ok { tx with buffer := tx.buffer ++ terms.map (fun t => (t, docID)),
                  pendingDeletes := pd }

/-- Modelled from the spec (§4.4 `Delete`): records the docID in
`pendingDeletes` and removes any staged items for it. -/
def Transaction.Delete (tx : Transaction) (docID : Nat) : Except Err Transaction :=
  .ok { tx with buffer := tx.buffer.filter (fun it => it.2 != docID),
                pendingDeletes := tx.pendingDeletes ++ [docID] }

/-- Modelled from the spec (§4.4 `Import`): streams pre-sorted items into
the buffer; any docID that conflicts with the base snapshot joins
`pendingDeletes`. -/
def Transaction.Import (tx : Transaction) (items : List (Nat × Nat)) :
    Except Err Transaction :=
  .ok { tx with buffer := tx.buffer ++ items,
                pendingDeletes :=
                  tx.pendingDeletes ++
                    (items.map (·.2)).filter (fun d => tx.base.ContainsDoc d) }

/-- Modelled from the spec (§4.5 steps 3–5): the commit's preparation
callback.  It re-bases onto the DB's *current* manifest `base` (the
transaction's own snapshot is not consulted).  If the staging buffer is
non-empty, a new segment takes the next txid and is appended; every docID
in `pendingDeletes` plus the docIDs of the new segment is tombstoned in
every pre-existing segment (the new segment is excluded from the sweep).
Returns the prepared manifest and the txid after segment creation. -/
def Transaction.prepareCommit (tx : Transaction) (base : Manifest) (txid : Nat) :
    Except Err (Manifest × Nat) :=
  if tx.buffer.isEmpty then
    .ok ({ ID := base.ID,
           Segments := base.Segments.map fun s => s.applyDeletes tx.pendingDeletes },
         txid)
  else
    let sid := u32 (txid + 1)
    let seg := CreateSegment sid tx.buffer
    let sweep := tx.pendingDeletes ++ seg.items.map (·.2)
    .ok ({ ID := base.ID,
           Segments := (base.Segments.map fun s => s.applyDeletes sweep) ++ [seg] },
         sid)

/-- The directory, abstracted: the latest saved manifest, if any
(spec §4.3 Save: the newest manifest file wins on re-open). -/
structure FS where
  saved : Option Manifest
deriving DecidableEq, Repr

/-- The DB state (db.go `struct DB`): the file system, the txid counter,
the atomically published current manifest, the `closed` flag, and the
open/closed state of the three channels (`closing`, `mergeRequests`,
`orphanedFiles`).  The lock, refcount table and background-task handles
have no observable effect on the claims' behaviours and are elided. -/
structure DB where
  fs : FS
  txid : Nat
  manifest : Manifest
  closed : Bool
  closingClosed : Bool
  mergeReqClosed : Bool
  orphanClosed : Bool
deriving DecidableEq, Repr

/-- Modelled from the spec (§4.3 Load, the manifest source file is not in
the snapshot): return the saved manifest; if none exists, an empty
manifest with `ID = 0` when `create` is set, otherwise an error. -/
def Manifest.Load (fs : FS) (create : Bool) : Except Err Manifest :=
  match fs.saved with
  | some m => .ok m
  | none => if create then .ok { ID := 0, Segments := [] } else .error .NotFound

/-- `Open` (db.go): load the manifest and initialise the DB with
`txid = manifest.ID`, all channels open. -/
def Open (fs : FS) (create : Bool) : Except Err DB :=
  match Manifest.Load fs create with
  | .error e => .error e
  | .ok m =>
    .ok { fs := fs, txid := m.ID, manifest := m, closed := false,
          closingClosed := false, mergeReqClosed := false, orphanClosed := false }

/-- `DB.commit` (db.go): fail with `AlreadyClosed` when closed; run the
preparation callback on the current manifest; assign the manifest the
next txid; write segment metadata updates and the manifest file (the two
Booleans inject the success or failure of those writes); only then
publish the new manifest and record it as saved.  On any error the
published manifest is untouched (though the txid consumed by a failed
attempt is not returned). -/
def DB.commit (db : DB) (prepare : Manifest → Nat → Except Err (Manifest × Nat))
    (segSaveOk manifestSaveOk : Bool) : DB × Option Err :=
  if db.closed then (db, some .AlreadyClosed)
  else
    match prepare db.manifest db.txid with
    | .error e => (db, some e)
    | .ok (m, txid1) =>
      let newID := u32 (txid1 + 1)
      if !segSaveOk then ({ db with txid := newID }, some .SegmentUpdateFailed)
      else if !manifestSaveOk then ({ db with txid := newID }, some .SaveFailed)
      else
        let m2 : Manifest :=
          { ID := newID,
            Segments := m.Segments.map fun s =>
              if s.dirty then { s with UpdateID := newID, dirty := false } else s }
        ({ db with txid := newID, manifest := m2, fs := { saved := some m2 } }, none)

/-- Shorthand for the `Transaction` structure, needed from here on because
the method name `DB.Transaction` shadows the structure name inside the
`DB` namespace. -/
abbrev Txn := Transaction

/-- `DB.Transaction` (db.go): fail with `AlreadyClosed` when closed, else
hand out a transaction whose base snapshot is the current manifest. -/
def DB.Transaction (db : DB) : Except Err Txn :=
  if db.closed then .error .AlreadyClosed
  else .ok { base := db.manifest, buffer := [], pendingDeletes := [] }

/-- `Transaction.Commit` as seen from the DB: `DB.commit` with the
transaction's preparation callback, on the happy I/O path. -/
def DB.commitTxn (db : DB) (tx : Txn) : DB × Option Err :=
  db.commit tx.prepareCommit true true

/-- `DB.RunInTransaction` (db.go): open a transaction, run the callback;
if it fails return its error without committing (the deferred `Close`
discards the staging); otherwise commit. -/
def DB.RunInTransaction (db : DB) (fn : Txn → Except Err Txn) :
    DB × Option Err :=
  match db.Transaction with
  | .error e => (db, some e)
  | .ok tx =>
    match fn tx with
    | .error e => (db, some e)
    | .ok tx2 => db.commitTxn tx2

/-- `DB.Add` (db.go): one-shot add through `RunInTransaction`. -/
def DB.Add (db : DB) (docID : Nat) (terms : List Nat) : DB × Option Err :=
  db.RunInTransaction fun tx => tx.Add docID terms

/-- `DB.Delete` (db.go): one-shot delete through `RunInTransaction`. -/
def DB.Delete (db : DB) (docID : Nat) : DB × Option Err :=
  db.RunInTransaction fun tx => tx.Delete docID

/-- `DB.Import` (db.go): one-shot import through `RunInTransaction`. -/
def DB.Import (db : DB) (items : List (Nat × Nat)) : DB × Option Err :=
  db.RunInTransaction fun tx => tx.Import items

/-- `DB.Truncate` (db.go): snapshot the current manifest, then commit a
clone from which every snapshotted segment is removed. -/
def DB.Truncate (db : DB) : DB × Option Err :=
  let snap := db.manifest
  db.commit
    (fun base txid =>
      .ok ({ ID := base.ID,
             Segments := base.Segments.filter fun s =>
               !(snap.Segments.any fun t => t.id == s.id) },
           txid))
    true true

/-- `DB.Search` (db.go): searches a snapshot of the current manifest.
Note that neither `Search` nor `newSnapshot` consults `db.closed`. -/
def DB.Search (db : DB) (query : List Nat) : List (Nat × Nat) × Option Err :=
  (db.manifest.Search query, none)

/-- `DB.Snapshot` (db.go): a read view pinned to the current manifest;
the signature offers no error path and `newSnapshot` does not consult
`db.closed`. -/
def DB.Snapshot (db : DB) : Manifest :=
  db.manifest

/-- `DB.Compact` (db.go): sends a request on the `mergeRequests` channel
and waits for the worker's reply.  A send on a closed channel panics in
Go, modelled as `none`.  Merge planning and execution (spec §4.7–§4.8)
are outside the snapshot and not needed by any claim; on the open-channel
path the observable result when the policy selects no merge is a nil
error and an unchanged DB. -/
def DB.Compact (db : DB) : Option (DB × Option Err) :=
  if db.mergeReqClosed then none
  else some (db, none)

/-- `DB.Close` (db.go): closes the `closing`, `mergeRequests` and
`orphanedFiles` channels in that order, waits for the background tasks,
releases the write lock and sets `closed`.  A `close` of an
already-closed channel panics in Go, modelled as `none`. -/
def DB.Close (db : DB) : Option DB :=
  if db.closingClosed then none
  else if db.mergeReqClosed then none
  else if db.orphanClosed then none
  else some { db with closed := true, closingClosed := true,
                      mergeReqClosed := true, orphanClosed := true }

/-! ## Scenario definitions shared by the theorems below -/

/-- A directory with no manifest file. -/
def emptyFS : FS := { saved := none }

/-- The DB produced by `Open` on an empty directory with `create = true`:
an empty manifest with `ID = 0`, all channels open. -/
def freshDB : DB :=
  { fs := emptyFS, txid := 0, manifest := { ID := 0, Segments := [] },
    closed := false, closingClosed := false, mergeReqClosed := false,
    orphanClosed := false }

/-- The term set of the first document in the `TestDB` scenario. -/
def c1terms : List Nat :=
  [0xdcfc2563, 0xdcbc2421, 0xddbc3420, 0xdd9c1530, 0xdf9c6d40, 0x4f4ce540, 0x4f0ea5c0]

/-- The state after `Add(1234, c1terms)` on a fresh DB. -/
def c1db1 : DB := (freshDB.Add 1234 c1terms).1

/-- The state after the further `Add(5678, [123, 53])`. -/
def c1db2 : DB := (c1db1.Add 5678 [123, 53]).1

/-- The options set when opening a database (db.go `Options`). -/
structure Options where
  EnableAutoCompact : Bool
  AutoCompactInterval : Nat
deriving DecidableEq, Repr

/-- db.go `DefaultOptions`: auto-compact disabled, interval 10 seconds
(durations counted in nanoseconds, as Go's `time.Duration`). -/
def DefaultOptions : Options :=
  { EnableAutoCompact := false, AutoCompactInterval := 10000000000 }

/-- An observable event of the `autoCompact` loop (db.go): a ticker tick
whose compaction either fails or succeeds, or the `closing` channel
being closed. -/
inductive ACEvent where
  | tick (compactFailed : Bool)
  | closing
deriving DecidableEq, Repr

/-- `tick true`: a tick whose compaction failed. -/
def ACEvent.isFailTick : ACEvent → Bool
  | .tick f => f
  | .closing => false

/-- Any ticker tick. -/
def ACEvent.isTick : ACEvent → Bool
  | .tick _ => true
  | .closing => false

/-- The state of the `autoCompact` loop: the current ticker interval, the
number of compaction requests issued so far, and whether the loop has
returned. -/
structure ACState where
  interval : Nat
  requests : Nat
  stopped : Bool
deriving DecidableEq, Repr

/-- One iteration of the `autoCompact` select loop (db.go): once stopped
nothing more happens; a tick issues one compaction request
(`db.Compact()`), and if it failed the interval grows by half of itself
and the ticker is restarted; the `closing` case stops the ticker and
returns.  A successful compaction leaves the interval unchanged. -/
def acStep (s : ACState) (e : ACEvent) : ACState :=
  if s.stopped then s
  else
    match e with
    | .tick failed =>
      let s1 := { s with requests := s.requests + 1 }
      if failed then { s1 with interval := s1.interval + s1.interval / 2 }
      else s1
    | .closing => { s with stopped := true }

/-- The `autoCompact` task run over a sequence of events, starting from
the configured `AutoCompactInterval`. -/
def autoCompactRun (opts : Options) (events : List ACEvent) : ACState :=
  events.foldl acStep
    { interval := opts.AutoCompactInterval, requests := 0, stopped := false }

/-- The backoff applied to the interval by one failed compaction. -/
def backoff (i : Nat) : Nat := i + i / 2

/-- A sequence of one-shot `DB.Add` calls, threading the DB state. -/
def applyAdds (db : DB) (ops : List (Nat × List Nat)) : DB :=
  ops.foldl (fun d op => (d.Add op.1 op.2).1) db

/-- The identity preparation callback: a commit that re-publishes the
current manifest (used to exercise `DB.commit` in isolation). -/
def idPrepare : Manifest → Nat → Except Err (Manifest × Nat) :=
  fun m txid => .ok (m, txid)

/-- A preparation callback that always fails. -/
def failPrepare : Manifest → Nat → Except Err (Manifest × Nat) :=
  fun _ _ => .error Err.PrepareFailed

/-- A DB whose `closed` flag is set (the state inside `DB.commit`'s
`AlreadyClosed` check). -/
def c3closedDB : DB := { freshDB with closed := true }

/-- The state after `Add(1,[7,8,9])` then `Add(1,[3,4,5])` on a fresh DB. -/
def c4db : DB := applyAdds freshDB [(1, [7, 8, 9]), (1, [3, 4, 5])]

/-- `c4db` after `Close`. -/
def c4closed : DB := (c4db.Close).getD freshDB

/-- The DB obtained by re-opening the directory of `c4closed`. -/
def c4reopened : DB := (Open c4closed.fs false).toOption.getD freshDB

/-- A DB holding one committed document, before `Close`. -/
def c6openDB : DB := (freshDB.Add 1 [1]).1

/-- `c6openDB` after `Close`. -/
def c6closedDB : DB := (c6openDB.Close).getD freshDB

/-- `freshDB` after `Close`. -/
def closedFreshDB : DB := (freshDB.Close).getD freshDB

/-- The state after the committed `Add(1, [1])` on a fresh DB. -/
def c5db1 : DB := (freshDB.Add 1 [1]).1

/-- The state after the further committed `Add(2, [2])`. -/
def c5db2 : DB := (c5db1.Add 2 [2]).1

/-! ## Theorems -/

/-- Inversion for `DB.Close`: a successful close marks the DB closed and
all three channels closed, and changes nothing else. -/
theorem DB.Close_some {db dbc : DB} (h : db.Close = some dbc) :
    dbc = { db with closed := true, closingClosed := true,
                    mergeReqClosed := true, orphanClosed := true } := by
  unfold DB.Close at h
  by_cases h1 : db.closingClosed <;> simp [h1] at h
  by_cases h2 : db.mergeReqClosed <;> simp [h2] at h
  by_cases h3 : db.orphanClosed <;> simp [h3] at h
  exact h.symm

/-- C1: after `Add(1234, [0xdcfc2563, 0xdcbc2421, 0xddbc3420, 0xdd9c1530,
0xdf9c6d40, 0x4f4ce540, 0x4f0ea5c0])` and `Add(5678, [123, 53])` on a
freshly created DB, both adds succeed and
`Search([1, 2, 0xdcfc2563, 0xdcbc2421, 0xdeadbeef, 0xffffffff])` returns
exactly the map `{1234: 2}` with no error: doc 1234 is counted once per
distinct query term it shares (two of the six), and doc 5678, sharing no
query term, is absent from the result. -/
theorem c1_add_add_search :
    Open emptyFS true = .ok freshDB ∧
    (freshDB.Add 1234 c1terms).2 = none ∧
    (c1db1.Add 5678 [123, 53]).2 = none ∧
    c1db2.Search [1, 2, 0xdcfc2563, 0xdcbc2421, 0xdeadbeef, 0xffffffff] =
      ([(1234, 2)], none) :=
  ⟨rfl, rfl, rfl, by decide⟩

/-- The transaction handed out by `DB.Transaction` on a fresh DB. -/
def c2tx0 : Txn := { base := freshDB.manifest, buffer := [], pendingDeletes := [] }

/-- `tx1` after `tx1.Add(1, [1])`. -/
def c2txA : Txn := { base := freshDB.manifest, buffer := [(1, 1)], pendingDeletes := [] }

/-- `tx2` after `tx2.Add(1, [2])`. -/
def c2txB : Txn := { base := freshDB.manifest, buffer := [(2, 1)], pendingDeletes := [] }

/-- The DB after `tx1.Commit()`. -/
def c2db1 : DB := (freshDB.commitTxn c2txA).1

/-- The DB after the subsequent `tx2.Commit()`. -/
def c2db2 : DB := (c2db1.commitTxn c2txB).1

/-- C2: two transactions on the same DB adding docID 1 with different
term sets; after `tx1.Commit()` then `tx2.Commit()`, `Search([1])` is
empty and `Search([2])` is `{1: 1}` — the later commit wins.  The final
conjunct shows the outcome is determined solely by commit order and not
by transaction-creation order: the commit re-bases onto the DB's current
manifest and never consults the transaction's base snapshot, so changing
the base snapshot leaves the commit's result unchanged. -/
theorem c2_concurrent_inserts_last_write_wins :
    freshDB.Transaction = .ok c2tx0 ∧
    c2tx0.Add 1 [1] = .ok c2txA ∧
    c2tx0.Add 1 [2] = .ok c2txB ∧
    (freshDB.commitTxn c2txA).2 = none ∧
    (c2db1.commitTxn c2txB).2 = none ∧
    c2db2.Search [1] = ([], none) ∧
    c2db2.Search [2] = ([(1, 1)], none) ∧
    ∀ (b : Manifest) (db : DB) (tx : Txn),
      db.commitTxn { tx with base := b } = db.commitTxn tx :=
  ⟨rfl, rfl, rfl, rfl, rfl, by decide, by decide, fun b db tx => rfl⟩

/-- C7: `Open` on a directory with no manifest fails when `create` is
false; with `create = true` it succeeds with an empty index whose
manifest ID is 0, and an immediately following `Search` returns the empty
result for every query. -/
theorem c7_open_create :
    Open emptyFS false = .error Err.NotFound ∧
    Open emptyFS true = .ok freshDB ∧
    freshDB.manifest.ID = 0 ∧
    (∀ q, freshDB.Search q = ([], none)) :=
  ⟨rfl, rfl, rfl, fun _ => rfl⟩

/-- C10: `DB.Close` is not idempotent.  The first close on a DB whose
channels are open performs the full shutdown (closes the three channels
and sets `closed`); a second close finds the `closing` channel already
closed, and a Go `close` of a closed channel panics (result `none`)
instead of being a no-op or returning `AlreadyClosed`. -/
theorem c10_second_close_panics :
    ∀ (db dbc : DB), db.Close = some dbc →
      dbc = { db with closed := true, closingClosed := true,
                      mergeReqClosed := true, orphanClosed := true } ∧
      dbc.Close = none := by
  intro db dbc h
  have he := DB.Close_some h
  subst he
  exact ⟨rfl, by unfold DB.Close; simp⟩

/-- Witness for C10 at a concrete input: closing a fresh DB succeeds, and
the second close panics. -/
theorem c10_witness :
    freshDB.Close = some closedFreshDB ∧ closedFreshDB.Close = none :=
  ⟨rfl, (c10_second_close_panics freshDB closedFreshDB rfl).2⟩

/-- Counterexample to C6: after `Close`, `Search` does not return the
`AlreadyClosed` error — neither `DB.Search` nor `newSnapshot` consults
`db.closed`, so the search succeeds against the last published manifest
and still returns the stored document with a nil error. -/
theorem c6_counterexample :
    c6openDB.Close = some c6closedDB ∧
    c6closedDB.closed = true ∧
    c6closedDB.Search [1] = ([(1, 1)], none) :=
  ⟨rfl, rfl, by decide⟩

/-- C6 (amended): after `DB.Close` completes, `Transaction`, `Add`,
`Delete`, `Import`, `Truncate` and every commit return `AlreadyClosed`;
but `Search` and `Snapshot` do not check the flag and still operate on
the last published manifest (returning results with a nil error), and
`Compact` panics by sending on the closed merge-request channel. -/
theorem c6_after_close :
    ∀ (db dbc : DB), db.Close = some dbc →
      dbc.Transaction = .error Err.AlreadyClosed ∧
      (∀ d ts, dbc.Add d ts = (dbc, some Err.AlreadyClosed)) ∧
      (∀ d, dbc.Delete d = (dbc, some Err.AlreadyClosed)) ∧
      (∀ items, dbc.Import items = (dbc, some Err.AlreadyClosed)) ∧
      dbc.Truncate = (dbc, some Err.AlreadyClosed) ∧
      (∀ prepare segSaveOk manifestSaveOk,
        dbc.commit prepare segSaveOk manifestSaveOk = (dbc, some Err.AlreadyClosed)) ∧
      (∀ q, dbc.Search q = (dbc.manifest.Search q, none)) ∧
      dbc.Snapshot = dbc.manifest ∧
      dbc.Compact = none := by
  intro db dbc h
  have he := DB.Close_some h
  have hcl : dbc.closed = true := by rw [he]
  have hmr : dbc.mergeReqClosed = true := by rw [he]
  refine ⟨?_, ?_, ?_, ?_, ?_, ?_, fun _ => rfl, rfl, ?_⟩
  · unfold DB.Transaction; simp [hcl]
  · intro d ts
    unfold DB.Add DB.RunInTransaction DB.Transaction
    simp [hcl]
  · intro d
    unfold DB.Delete DB.RunInTransaction DB.Transaction
    simp [hcl]
  · intro items
    unfold DB.Import DB.RunInTransaction DB.Transaction
    simp [hcl]
  · unfold DB.Truncate DB.commit
    simp [hcl]
  · intro prepare s ms
    unfold DB.commit
    simp [hcl]
  · unfold DB.Compact
    simp [hmr]

/-- Witness for C6 (amended) at a concrete input. -/
theorem c6_witness :
    c6closedDB.Transaction = .error Err.AlreadyClosed ∧
    c6closedDB.Add 5 [5] = (c6closedDB, some Err.AlreadyClosed) ∧
    c6closedDB.Truncate = (c6closedDB, some Err.AlreadyClosed) ∧
    c6closedDB.Compact = none := by
  have h := c6_after_close c6openDB c6closedDB rfl
  exact ⟨h.1, h.2.1 5 [5], h.2.2.2.2.1, h.2.2.2.2.2.2.2.2⟩

/-- C9: `RunInTransaction` commits exactly when the callback succeeds.
On a live DB, if the callback returns an error on the freshly opened
transaction, `RunInTransaction` returns that same error and the DB state
— in particular the committed manifest observed by subsequent searches —
is unchanged (the commit path is never reached); if the callback
succeeds, the resulting transaction is committed. -/
theorem c9_run_in_transaction :
    ∀ (db : DB) (fn : Txn → Except Err Txn), db.closed = false →
      (∀ e, fn { base := db.manifest, buffer := [], pendingDeletes := [] } = .error e →
        db.RunInTransaction fn = (db, some e)) ∧
      (∀ tx2, fn { base := db.manifest, buffer := [], pendingDeletes := [] } = .ok tx2 →
        db.RunInTransaction fn = db.commitTxn tx2) := by
  intro db fn hc
  constructor
  · intro e he
    unfold DB.RunInTransaction DB.Transaction
    simp [hc, he]
  · intro tx2 ht
    unfold DB.RunInTransaction DB.Transaction
    simp [hc, ht]

/-- Witness for C9 at concrete inputs: a failing callback propagates its
error with the DB unchanged; `Add`'s callback commits. -/
theorem c9_witness :
    freshDB.RunInTransaction (fun _ => .error Err.Validation) =
      (freshDB, some Err.Validation) ∧
    freshDB.RunInTransaction (fun tx => tx.Add 1 [1]) =
      freshDB.commitTxn
        { base := freshDB.manifest, buffer := [(1, 1)], pendingDeletes := [] } := by
  constructor
  · exact (c9_run_in_transaction freshDB _ rfl).1 Err.Validation rfl
  · exact (c9_run_in_transaction freshDB _ rfl).2 _ rfl

/-- C3: `DB.commit` is atomic with respect to failure.  On a closed DB it
returns `AlreadyClosed`; a preparation error is returned as the commit's
error; whenever the commit returns any error, the published in-memory
manifest (and the saved directory state) is exactly the one current
before the commit started; and an injected failure of the segment
metadata write or the manifest file write yields the corresponding
error with only the already-consumed txid changed. -/
theorem c3_commit_atomic :
    ∀ (db : DB) (prepare : Manifest → Nat → Except Err (Manifest × Nat))
      (segSaveOk manifestSaveOk : Bool),
      (db.closed = true →
        db.commit prepare segSaveOk manifestSaveOk = (db, some Err.AlreadyClosed)) ∧
      (db.closed = false → ∀ e, prepare db.manifest db.txid = .error e →
        db.commit prepare segSaveOk manifestSaveOk = (db, some e)) ∧
      (∀ e, (db.commit prepare segSaveOk manifestSaveOk).2 = some e →
        (db.commit prepare segSaveOk manifestSaveOk).1.manifest = db.manifest ∧
        (db.commit prepare segSaveOk manifestSaveOk).1.fs = db.fs) ∧
      (db.closed = false → ∀ m txid1, prepare db.manifest db.txid = .ok (m, txid1) →
        (segSaveOk = false →
          db.commit prepare segSaveOk manifestSaveOk =
            ({ db with txid := u32 (txid1 + 1) }, some Err.SegmentUpdateFailed)) ∧
        (segSaveOk = true → manifestSaveOk = false →
          db.commit prepare segSaveOk manifestSaveOk =
            ({ db with txid := u32 (txid1 + 1) }, some Err.SaveFailed))) := by
  intro db prepare segSaveOk manifestSaveOk
  refine ⟨?_, ?_, ?_, ?_⟩
  · intro h
    unfold DB.commit
    simp [h]
  · intro h e he
    unfold DB.commit
    simp [h, he]
  · intro e he
    unfold DB.commit at he ⊢
    by_cases hcl : db.closed = true
    · simp [hcl]
    · simp only [Bool.not_eq_true] at hcl
      simp only [hcl] at he ⊢
      rcases hp : prepare db.manifest db.txid with e2 | ⟨m, txid1⟩
      · simp [hp]
      · simp only [hp] at he ⊢
        by_cases hs : segSaveOk
        · by_cases hm : manifestSaveOk
          · simp [hs, hm] at he
          · simp only [Bool.not_eq_true] at hm
            simp [hs, hm]
        · simp only [Bool.not_eq_true] at hs
          simp [hs]
  · intro h m txid1 hp
    constructor
    · intro hs
      unfold DB.commit
      simp [h, hp, hs]
    · intro hs hm
      unfold DB.commit
      simp [h, hp, hs, hm]

/-- Witness for C3 at concrete inputs: each failure mode at a concrete
DB, with the published manifest observed unchanged. -/
theorem c3_witness :
    c3closedDB.commit idPrepare true true = (c3closedDB, some Err.AlreadyClosed) ∧
    freshDB.commit failPrepare true true = (freshDB, some Err.PrepareFailed) ∧
    (freshDB.commit idPrepare false true).1.manifest = freshDB.manifest ∧
    freshDB.commit idPrepare true false =
      ({ freshDB with txid := 1 }, some Err.SaveFailed) := by
  refine ⟨?_, ?_, ?_, ?_⟩
  · exact (c3_commit_atomic c3closedDB idPrepare true true).1 rfl
  · exact (c3_commit_atomic freshDB failPrepare true true).2.1 rfl Err.PrepareFailed rfl
  · rw [((c3_commit_atomic freshDB idPrepare false true).2.2.2 rfl freshDB.manifest 0 rfl).1 rfl]
  · exact ((c3_commit_atomic freshDB idPrepare true false).2.2.2 rfl freshDB.manifest 0 rfl).2 rfl rfl

/-- Running `acStep` over tick events only: the loop never stops, issues
one request per tick, and the final interval is the backoff iterated once
per failed tick — independent of where the successful ticks fall. -/
theorem acRun_from_ticks :
    ∀ (events : List ACEvent) (s : ACState),
      (∀ e ∈ events, e.isTick = true) → s.stopped = false →
      events.foldl acStep s =
        { interval := backoff^[events.countP ACEvent.isFailTick] s.interval,
          requests := s.requests + events.length,
          stopped := false } := by
  intro events
  induction events with
  | nil =>
    intro s _ hs
    cases s
    simp_all
  | cons e rest ih =>
    intro s hall hs
    have hrest : ∀ x ∈ rest, x.isTick = true := fun x hx => hall x (by simp [hx])
    cases e with
    | closing =>
      have := hall .closing (by simp)
      simp [ACEvent.isTick] at this
    | tick f =>
      cases f
      · have hstep : acStep s (.tick false) = { s with requests := s.requests + 1 } := by
          unfold acStep
          simp [hs]
        rw [List.foldl_cons, hstep,
          ih { interval := s.interval, requests := s.requests + 1,
               stopped := s.stopped } hrest hs]
        simp [List.countP_cons, ACEvent.isFailTick, ACState.mk.injEq]
        omega
      · have hstep : acStep s (.tick true) =
            { s with interval := s.interval + s.interval / 2,
                     requests := s.requests + 1 } := by
          unfold acStep
          simp [hs]
        rw [List.foldl_cons, hstep,
          ih { interval := s.interval + s.interval / 2, requests := s.requests + 1,
               stopped := s.stopped } hrest hs]
        simp [List.countP_cons, ACEvent.isFailTick, ACState.mk.injEq,
          Function.iterate_succ_apply, backoff]
        omega

/-- C8: the `autoCompact` task starts with interval
`AutoCompactInterval`; every tick issues exactly one compaction request;
a failed compaction grows the interval by `interval + interval / 2` and
reschedules with the new interval; a successful compaction never changes
the interval (there is no reset), so over any run of ticks the final
interval depends only on the number of failures; and the task stops only
on the `closing` event. -/
theorem c8_autocompact_backoff :
    (∀ opts, (autoCompactRun opts []).interval = opts.AutoCompactInterval) ∧
    (∀ s f, s.stopped = false →
      (acStep s (.tick f)).requests = s.requests + 1 ∧
      (acStep s (.tick true)).interval = s.interval + s.interval / 2 ∧
      (acStep s (.tick false)).interval = s.interval ∧
      (acStep s (.tick f)).stopped = false) ∧
    (∀ s, acStep s .closing = { s with stopped := true }) ∧
    (∀ opts events, (∀ e ∈ events, e.isTick = true) →
      (autoCompactRun opts events).stopped = false ∧
      (autoCompactRun opts events).requests = events.length ∧
      (autoCompactRun opts events).interval =
        backoff^[events.countP ACEvent.isFailTick] opts.AutoCompactInterval) := by
  refine ⟨fun opts => rfl, ?_, ?_, ?_⟩
  · intro s f hs
    refine ⟨?_, ?_, ?_, ?_⟩ <;> (unfold acStep; cases f <;> simp [hs])
  · intro s
    unfold acStep
    by_cases hst : s.stopped = true
    · cases s
      simp_all
    · simp only [Bool.not_eq_true] at hst
      simp [hst]
  · intro opts events h
    rw [autoCompactRun, acRun_from_ticks events _ h rfl]
    exact ⟨rfl, by simp, rfl⟩

/-- Witness for C8 at a concrete run: three ticks with failures at the
first and third positions issue three requests, leave the loop running,
and back the interval off exactly twice. -/
theorem c8_witness :
    (autoCompactRun { EnableAutoCompact := true, AutoCompactInterval := 10 }
      [.tick true, .tick false, .tick true]).stopped = false ∧
    (autoCompactRun { EnableAutoCompact := true, AutoCompactInterval := 10 }
      [.tick true, .tick false, .tick true]).requests = 3 ∧
    (autoCompactRun { EnableAutoCompact := true, AutoCompactInterval := 10 }
      [.tick true, .tick false, .tick true]).interval = backoff^[2] 10 := by
  have h := c8_autocompact_backoff.2.2.2
    { EnableAutoCompact := true, AutoCompactInterval := 10 }
    [.tick true, .tick false, .tick true] (by decide)
  exact ⟨h.1, h.2.1, h.2.2⟩

/-- Counterexample to C5: manifest IDs of successive committed states are
not contiguous.  On a fresh DB (manifest ID 0), the commit of
`Add(1, [1])` creates a segment — `createSegment` consumes one txid for
the segment id and `commit` consumes another for the manifest — so the
first committed manifest has ID 2, not 1, and the next `Add` publishes
ID 4, not 3. -/
theorem c5_counterexample :
    freshDB.manifest.ID = 0 ∧
    (freshDB.Add 1 [1]).2 = none ∧
    c5db1.manifest.ID = 2 ∧
    (c5db1.Add 2 [2]).2 = none ∧
    c5db2.manifest.ID = 4 ∧
    ¬(c5db1.manifest.ID = freshDB.manifest.ID + 1) ∧
    ¬(c5db2.manifest.ID = c5db1.manifest.ID + 1) := by
  decide

/-- C5 (amended): manifest IDs of successive committed states are
strictly increasing (while the `uint32` txid does not wrap) but not
contiguous.  A successful transaction commit with an empty staging
buffer publishes manifest ID `txid + 1`; a commit that creates a new
segment gives the segment id `txid + 1` and publishes manifest ID
`txid + 2`, appending the new segment at the end of the segment list. -/
theorem c5_manifest_id_steps :
    ∀ (db : DB) (tx : Txn), db.closed = false →
      (db.commitTxn tx).2 = none ∧
      (tx.buffer = [] → (db.commitTxn tx).1.manifest.ID = u32 (db.txid + 1)) ∧
      (tx.buffer ≠ [] →
        (db.commitTxn tx).1.manifest.ID = u32 (db.txid + 2) ∧
        ∃ pre seg, (db.commitTxn tx).1.manifest.Segments = pre ++ [seg] ∧
          seg.id = u32 (db.txid + 1)) ∧
      (db.txid + 2 < 4294967296 → db.manifest.ID ≤ db.txid →
        db.manifest.ID < (db.commitTxn tx).1.manifest.ID) := by
  intro db tx hc
  by_cases hb : tx.buffer = []
  · refine ⟨?_, fun _ => ?_, fun hne => absurd hb hne, fun hlt hle => ?_⟩
    · unfold DB.commitTxn DB.commit Transaction.prepareCommit
      simp [hc, hb]
    · unfold DB.commitTxn DB.commit Transaction.prepareCommit
      simp [hc, hb]
    · unfold DB.commitTxn DB.commit Transaction.prepareCommit
      simp [hc, hb]
      unfold u32
      omega
  · have hbe : tx.buffer.isEmpty = false := by
      cases htx : tx.buffer
      · exact absurd htx hb
      · simp [htx]
    refine ⟨?_, fun heq => absurd heq hb, fun _ => ⟨?_, ?_⟩, fun hlt hle => ?_⟩
    · unfold DB.commitTxn DB.commit Transaction.prepareCommit
      simp [hc, hbe]
    · unfold DB.commitTxn DB.commit Transaction.prepareCommit
      simp [hc, hbe]
      unfold u32
      omega
    · unfold DB.commitTxn DB.commit Transaction.prepareCommit
      simp [hc, hbe, CreateSegment]
      exact ⟨_, _, rfl, rfl⟩
    · unfold DB.commitTxn DB.commit Transaction.prepareCommit
      simp [hc, hbe]
      unfold u32
      omega

/-- Witness for C5 (amended) at concrete inputs: on a fresh DB a
segment-creating commit publishes ID `txid + 2`, a delete-only commit
publishes ID `txid + 1`, and the published ID grows. -/
theorem c5_witness :
    (freshDB.commitTxn
      { base := freshDB.manifest, buffer := [(1, 1)], pendingDeletes := [] }).1.manifest.ID
        = u32 (freshDB.txid + 2) ∧
    (freshDB.commitTxn
      { base := freshDB.manifest, buffer := [], pendingDeletes := [5] }).1.manifest.ID
        = u32 (freshDB.txid + 1) ∧
    freshDB.manifest.ID <
      (freshDB.commitTxn
        { base := freshDB.manifest, buffer := [(1, 1)], pendingDeletes := [] }).1.manifest.ID := by
  have h1 := c5_manifest_id_steps freshDB
    { base := freshDB.manifest, buffer := [(1, 1)], pendingDeletes := [] } rfl
  have h2 := c5_manifest_id_steps freshDB
    { base := freshDB.manifest, buffer := [], pendingDeletes := [5] } rfl
  exact ⟨(h1.2.2.1 (by simp)).1, h2.2.1 rfl, h1.2.2.2 (by decide) (by decide)⟩

/-- A transaction commit on the happy I/O path never changes the
`closed` flag or the three channel states. -/
theorem DB.commitTxn_flags (db : DB) (tx : Txn) :
    (db.commitTxn tx).1.closed = db.closed ∧
    (db.commitTxn tx).1.closingClosed = db.closingClosed ∧
    (db.commitTxn tx).1.mergeReqClosed = db.mergeReqClosed ∧
    (db.commitTxn tx).1.orphanClosed = db.orphanClosed := by
  unfold DB.commitTxn DB.commit Transaction.prepareCommit
  by_cases hc : db.closed = true
  · simp [hc]
  · simp only [Bool.not_eq_true] at hc
    by_cases hb : tx.buffer.isEmpty = true <;> simp [hc, hb]

/-- A transaction commit on a live DB on the happy I/O path succeeds and
leaves the directory's saved manifest equal to the published manifest. -/
theorem DB.commitTxn_sync (db : DB) (tx : Txn) (hc : db.closed = false) :
    (db.commitTxn tx).2 = none ∧
    (db.commitTxn tx).1.fs.saved = some (db.commitTxn tx).1.manifest ∧
    (db.commitTxn tx).1.closed = false := by
  unfold DB.commitTxn DB.commit Transaction.prepareCommit
  by_cases hb : tx.buffer.isEmpty = true <;> simp [hc, hb]

/-- A one-shot `Add` either leaves the DB state untouched (closed DB or
validation failure) or performs a transaction commit on a live DB. -/
theorem DB.Add_cases (db : DB) (d : Nat) (ts : List Nat) :
    (db.Add d ts).1 = db ∨
    (db.closed = false ∧ ∃ tx2, db.Add d ts = db.commitTxn tx2) := by
  unfold DB.Add DB.RunInTransaction DB.Transaction Transaction.Add
  by_cases hc : db.closed = true
  · simp [hc]
  · simp only [Bool.not_eq_true] at hc
    by_cases hd : (d == 0) = true
    · simp [hc, hd]
    · by_cases ht : ts.isEmpty = true
      · simp [hc, hd, ht]
      · right
        simp only [hc, hd, ht]
        exact ⟨trivial, _, rfl⟩

/-- A valid one-shot `Add` on a live DB reaches the commit. -/
theorem DB.Add_valid (db : DB) (d : Nat) (ts : List Nat) (hc : db.closed = false)
    (hd : (d == 0) = false) (ht : ts.isEmpty = false) :
    ∃ tx2, db.Add d ts = db.commitTxn tx2 := by
  unfold DB.Add DB.RunInTransaction DB.Transaction Transaction.Add
  simp only [hc, hd, ht]
  exact ⟨_, rfl⟩

/-- A run of one-shot `Add`s preserves liveness, the open channels, and
the directory-manifest agreement. -/
theorem applyAdds_invariant :
    ∀ (ops : List (Nat × List Nat)) (db : DB),
      db.closed = false → db.closingClosed = false → db.mergeReqClosed = false →
      db.orphanClosed = false → db.fs.saved = some db.manifest →
      (applyAdds db ops).closed = false ∧
      (applyAdds db ops).closingClosed = false ∧
      (applyAdds db ops).mergeReqClosed = false ∧
      (applyAdds db ops).orphanClosed = false ∧
      (applyAdds db ops).fs.saved = some (applyAdds db ops).manifest := by
  intro ops
  induction ops with
  | nil =>
    intro db h1 h2 h3 h4 h5
    exact ⟨h1, h2, h3, h4, h5⟩
  | cons op rest ih =>
    intro db h1 h2 h3 h4 h5
    have hstep : applyAdds db (op :: rest) = applyAdds (db.Add op.1 op.2).1 rest := rfl
    rw [hstep]
    rcases DB.Add_cases db op.1 op.2 with heq | ⟨hc, tx2, heq⟩
    · rw [heq]
      exact ih db h1 h2 h3 h4 h5
    · have hf := DB.commitTxn_flags db tx2
      have hs := DB.commitTxn_sync db tx2 hc
      rw [heq]
      exact ih _ (hf.1.trans h1) (hf.2.1.trans h2) (hf.2.2.1.trans h3)
        (hf.2.2.2.trans h4) hs.2.1

/-- C4: round trip through persistence.  For every non-empty sequence of
valid committed `Add` operations on a freshly created DB, closing and
re-opening the directory yields a DB whose `Search` answers equal the
pre-reopen DB's for every query; in particular, after `Add(1,[7,8,9])`
then `Add(1,[3,4,5])`, both before and after reopen, `Search([9])` is
empty and `Search([3])` equals `{1: 1}`. -/
theorem c4_roundtrip :
    (∀ (ops : List (Nat × List Nat)) (db0 : DB),
      Open emptyFS true = .ok db0 →
      ops ≠ [] →
      (∀ op ∈ ops, (op.1 == 0) = false ∧ op.2.isEmpty = false) →
      ∃ dbc db2,
        (applyAdds db0 ops).Close = some dbc ∧
        Open dbc.fs false = .ok db2 ∧
        ∀ q, db2.Search q = (applyAdds db0 ops).Search q) ∧
    c4db.Search [9] = ([], none) ∧
    c4db.Search [3] = ([(1, 1)], none) ∧
    c4db.Close = some c4closed ∧
    Open c4closed.fs false = .ok c4reopened ∧
    c4reopened.Search [9] = ([], none) ∧
    c4reopened.Search [3] = ([(1, 1)], none) := by
  refine ⟨?_, by decide, by decide, rfl, rfl, by decide, by decide⟩
  intro ops db0 hopen hne hval
  have h0 : (Except.ok freshDB : Except Err DB) = .ok db0 := hopen
  injection h0 with h0
  subst h0
  cases ops with
  | nil => exact absurd rfl hne
  | cons op rest =>
    obtain ⟨hd, ht⟩ := hval op (by simp)
    obtain ⟨tx2, htx⟩ := DB.Add_valid freshDB op.1 op.2 rfl hd ht
    have hf := DB.commitTxn_flags freshDB tx2
    have hs := DB.commitTxn_sync freshDB tx2 rfl
    have hc1 : (freshDB.Add op.1 op.2).1.closed = false := by
      rw [htx]; exact hs.2.2
    have hc2 : (freshDB.Add op.1 op.2).1.closingClosed = false := by
      rw [htx]; exact hf.2.1
    have hc3 : (freshDB.Add op.1 op.2).1.mergeReqClosed = false := by
      rw [htx]; exact hf.2.2.1
    have hc4 : (freshDB.Add op.1 op.2).1.orphanClosed = false := by
      rw [htx]; exact hf.2.2.2
    have hc5 : (freshDB.Add op.1 op.2).1.fs.saved =
        some (freshDB.Add op.1 op.2).1.manifest := by
      rw [htx]; exact hs.2.1
    obtain ⟨i1, i2, i3, i4, i5⟩ :=
      applyAdds_invariant rest (freshDB.Add op.1 op.2).1 hc1 hc2 hc3 hc4 hc5
    refine ⟨{ applyAdds (freshDB.Add op.1 op.2).1 rest with
                closed := true, closingClosed := true,
                mergeReqClosed := true, orphanClosed := true },
            { fs := (applyAdds (freshDB.Add op.1 op.2).1 rest).fs,
              txid := (applyAdds (freshDB.Add op.1 op.2).1 rest).manifest.ID,
              manifest := (applyAdds (freshDB.Add op.1 op.2).1 rest).manifest,
              closed := false, closingClosed := false,
              mergeReqClosed := false, orphanClosed := false },
            ?_, ?_, fun q => rfl⟩
    · show (applyAdds (freshDB.Add op.1 op.2).1 rest).Close = _
      unfold DB.Close
      simp [i2, i3, i4]
    · show Open (applyAdds (freshDB.Add op.1 op.2).1 rest).fs false = _
      unfold Open Manifest.Load
      rw [i5]

/-- Witness for C4 at the concrete input: the two adds of the
`TestDB_Add` scenario round-trip through close and reopen. -/
theorem c4_witness :
    ∃ dbc db2,
      (applyAdds freshDB [(1, [7, 8, 9]), (1, [3, 4, 5])]).Close = some dbc ∧
      Open dbc.fs false = .ok db2 ∧
      ∀ q, db2.Search q =
        (applyAdds freshDB [(1, [7, 8, 9]), (1, [3, 4, 5])]).Search q :=
  c4_roundtrip.1 [(1, [7, 8, 9]), (1, [3, 4, 5])] freshDB rfl (by simp) (by decide)
